import Mathlib

/-!
Shallow embedding of the media-generator core (models.py, repositories.py,
db_utils.py, and the orchestrator call sites in media_generator_app.py /
media_generator_service.py) together with proofs about the claims of the
specification.

Modelling conventions:
* SQLite tables are Lean lists of row structures; an SQL NULL column is an
  `Option`.
* Timestamps are abstract instants measured in minutes (`Nat`); SQLite's
  `ORDER BY created_at ASC` becomes sorting by `≤` on that instant, and
  `datetime('now', '-X minutes')` becomes integer arithmetic.
* `json.loads` is an external library function; it is modelled by an
  abstract parameter `parse : String → Option J` (`none` = JSONDecodeError).
  Applied to a Python `None` value (an SQL NULL column) it raises a
  TypeError, which the source does not catch; this is modelled explicitly.
* `json.dumps` of a metadata dict is abstracted to the serialized string
  carried by the `ArtifactRecord`; a falsy ({} or None) dict is `none`.
* Python string slicing `s[:n]` is `sliceTo` (take of the character list).
* Exceptions are `Except`; fallible external effects (connect, individual
  SQL statements, commit, rollback) are parameterised by fault oracles so
  that every exception path of the source is representable.
-/

namespace MediaGen

/-- Errors raised inside database code: `dbError` models `sqlite3.Error`,
`pyError` models any other Python exception, `typeError` models the
`TypeError` raised by `json.loads` on a non-string argument. -/
inductive PyErr where
  | dbError (msg : String)
  | pyError (msg : String)
  | typeError
deriving DecidableEq, Repr

/-- Python string slicing `s[:n]` (by code points). -/
def sliceTo (s : String) (n : Nat) : String :=
  String.mk (s.data.take n)

/-- Python `str.capitalize()`: first character uppercased, the rest
lowercased (`''.capitalize() == ''`). -/
def pyCapitalize (s : String) : String :=
  match s.data with
  | [] => ""
  | c :: rest => String.mk (Char.toUpper c :: rest.map Char.toLower)

/-- Python truthiness of an optional string (`None` and `''` are falsy). -/
def pyTruthyStr : Option String → Bool
  | none => false
  | some s => !(s == "")

/-- One entry of the `writings` list built by the repository queries
(repositories.py, the dict with keys writing_id / writing_order / content /
content_type / title).  `content` is `Option String` because the joined
`w.content` column may be SQL NULL, in which case the dict holds Python
`None`. -/
structure Writing where
  writing_id : Nat
  writing_order : Nat
  content : Option String
  content_type : String
  title : String
deriving DecidableEq, Repr

/-- models.py `PromptRecord` dataclass. -/
structure PromptRecord where
  id : Nat
  prompt_text : String
  prompt_type : String
  status : String
  artifact_status : String
  output_reference : Option Nat
  created_at : Nat
  completed_at : Option Nat
  error_message : Option String
  json_content : Option String := none
  writing_id : Option Nat := none
  writings : List Writing := []
deriving DecidableEq, Repr

/-- models.py `PromptRecord.primary_writing`: `writings[-1]` when the list
is nonempty, else Python `None`. -/
def PromptRecord.primary_writing (r : PromptRecord) : Option Writing :=
  r.writings.getLast?

/-- models.py `PromptRecord.is_pending`. -/
def PromptRecord.is_pending (r : PromptRecord) : Bool :=
  let has_content := r.json_content.isSome || decide (0 < r.writings.length)
  (r.status == "completed") && (r.artifact_status == "pending") && has_content

/-- Result of a Python call that either returns a value or raises. -/
inductive PyResult (J : Type) where
  | ok (v : J)
  | raised (e : PyErr)
deriving DecidableEq, Repr

/-- models.py `PromptRecord.get_json_prompt`, parameterised by the abstract
JSON parser (`parse s = none` models `json.JSONDecodeError`) and the parsed
representation `emptyDict` of `{}`.  The repository always builds writing
dicts containing the key `'content'`, so `'content' in primary` is true and
`if primary` (nonempty dict) is true; the value may however be Python
`None` (SQL NULL), in which case `json.loads(None)` raises a TypeError that
the `except json.JSONDecodeError` clause does not catch.

`legacy_json` is the fall-back tail of the source function (the code from
`if not self.json_content:` on): empty dictionary when the legacy field is
None or empty, else its parse with empty-dictionary default. -/
def PromptRecord.legacy_json (J : Type) (emptyDict : J)
    (parse : String → Option J) (r : PromptRecord) : PyResult J :=
  if pyTruthyStr r.json_content then
    match r.json_content with
    | some s => .ok ((parse s).getD emptyDict)
    | none => .ok emptyDict
  else
    .ok emptyDict

/-- models.py `PromptRecord.get_json_prompt` (see `legacy_json` above for
the modelling notes). -/
def PromptRecord.get_json_prompt (J : Type) (emptyDict : J)
    (parse : String → Option J) (r : PromptRecord) : PyResult J :=
  match r.primary_writing with
  | some primary =>
    match primary.content with
    | none => .raised .typeError
    | some s =>
      match parse s with
      | some v => .ok v
      | none => r.legacy_json J emptyDict parse
  | none => r.legacy_json J emptyDict parse

/-- One labelled lyric section of the parsed lyrics structure
(models.py `LyricsPromptData.structure` entries).  `number` is `none` when
the key is absent (`section.get('number', '')` yields the falsy `''`);
a present number `0` is also falsy in Python. -/
structure LyricsSection where
  type : String
  number : Option Nat
  lyrics : String
deriving DecidableEq, Repr

/-- models.py `LyricsPromptData` dataclass.  The source field `structure`
is a Lean keyword, so it is called `sections` here. -/
structure LyricsPromptData where
  title : String
  genre : String
  mood : String
  tempo : String
  sections : List LyricsSection
  key : String
  time_signature : String
  vocal_style : String
  instrumentation : List String
deriving DecidableEq, Repr

/-- models.py `LyricsPromptData.get_full_lyrics`. -/
def LyricsPromptData.get_full_lyrics (d : LyricsPromptData) : String :=
  let lyrics_parts := d.sections.map (fun s =>
    let section_type := pyCapitalize s.type
    let header :=
      match s.number with
      | some n =>
        if n ≠ 0 then "[" ++ section_type ++ " " ++ toString n ++ "]"
        else "[" ++ section_type ++ "]"
      | none => "[" ++ section_type ++ "]"
    header ++ "\n" ++ s.lyrics ++ "\n")
  String.intercalate "\n" lyrics_parts

/-- A row of the `prompts` table. `processed_at` is the processing-start
timestamp column consulted by the stale sweep; nullable. -/
structure PromptRow where
  id : Nat
  prompt_text : String
  prompt_type : String
  status : String
  artifact_status : String
  output_reference : Option Nat
  created_at : Nat
  completed_at : Option Nat
  error_message : Option String
  processed_at : Option Nat
deriving DecidableEq, Repr

/-- A row of the `prompt_writings` join table. -/
structure PromptWritingRow where
  prompt_id : Nat
  writing_id : Nat
  writing_order : Nat
deriving DecidableEq, Repr

/-- A row of the `writings` table (the columns the queries read). -/
structure WritingTableRow where
  id : Nat
  content : Option String
  content_type : String
  title : String
deriving DecidableEq, Repr

/-- A row of the `prompt_artifacts` table (the columns the code writes;
`id`, `created_at`, `updated_at` are assigned by the database). -/
structure ArtifactRow where
  prompt_id : Nat
  artifact_type : String
  file_path : String
  preview_path : Option String
  metadata : Option String
deriving DecidableEq, Repr

/-- models.py `ArtifactRecord` dataclass; `metadata` is abstracted to its
serialized form, `none` standing for a falsy ({} or None) dict. -/
structure ArtifactRecord where
  prompt_id : Nat
  artifact_type : String
  file_path : String
  preview_path : Option String
  metadata : Option String
deriving DecidableEq, Repr

/-- The SQLite database state: one list per table. -/
structure DB where
  prompts : List PromptRow
  prompt_writings : List PromptWritingRow
  writings : List WritingTableRow
  prompt_artifacts : List ArtifactRow
deriving DecidableEq, Repr

/-- The WHERE clause of the pending-prompt queries
(repositories.py `get_pending_image_prompts` / `get_pending_lyrics_prompts`):
only `artifact_status` and `prompt_type` are constrained; the upstream
`status` column is deliberately not consulted. -/
def pendingPred (ptype : String) (p : PromptRow) : Bool :=
  (p.artifact_status == "pending") && (p.prompt_type == ptype)

/-- The prompt query of the pending-prompt reads: filter on
`artifact_status = 'pending' AND prompt_type = ?`, `ORDER BY created_at
ASC`. -/
def pendingPrompts (db : DB) (ptype : String) : List PromptRow :=
  List.insertionSort (fun p q => p.created_at ≤ q.created_at)
    (db.prompts.filter (pendingPred ptype))

/-- The writings query of the pending-prompt reads: join `prompt_writings`
with `writings` on `writing_id = writings.id`, keep rows whose
`content_type` matches, `ORDER BY writing_order ASC`. -/
def writingsFor (db : DB) (pid : Nat) (ctype : String) : List Writing :=
  List.insertionSort (fun a b => a.writing_order ≤ b.writing_order)
    ((db.prompt_writings.filter (fun pw => pw.prompt_id == pid)).flatMap
      (fun pw =>
        (db.writings.filter
            (fun w => (w.id == pw.writing_id) && (w.content_type == ctype))).map
          (fun w => ⟨pw.writing_id, pw.writing_order, w.content,
                     w.content_type, w.title⟩)))

/-- Construction of a `PromptRecord` from a prompt row and its hydrated
writings (repositories.py, the `PromptRecord(...)` call in the query loop):
legacy `writing_id` / `json_content` are taken from `writings[0]` when the
list is nonempty. -/
def toPromptRecord (p : PromptRow) (ws : List Writing) : PromptRecord :=
  { id := p.id
    prompt_text := p.prompt_text
    prompt_type := p.prompt_type
    status := p.status
    artifact_status := p.artifact_status
    output_reference := p.output_reference
    created_at := p.created_at
    completed_at := p.completed_at
    error_message := p.error_message
    writings := ws
    writing_id := ws.head?.map (·.writing_id)
    json_content := ws.head?.bind (·.content) }

/-- Common body of the two pending-prompt queries: select and sort the
matching prompt rows, apply `LIMIT`, hydrate each with its matching
writings.  The WAL-checkpoint pragma and the debug statistics queries of
the source read state only and do not affect the result. -/
def get_pending_prompts (db : DB) (ptype : String) (limit : Nat) :
    List PromptRecord :=
  ((pendingPrompts db ptype).take limit).map
    (fun p => toPromptRecord p (writingsFor db p.id ptype))

/-- repositories.py `PromptRepository.get_pending_image_prompts`. -/
def get_pending_image_prompts (db : DB) (limit : Nat) : List PromptRecord :=
  get_pending_prompts db "image_prompt" limit

/-- repositories.py `PromptRepository.get_pending_lyrics_prompts`. -/
def get_pending_lyrics_prompts (db : DB) (limit : Nat) : List PromptRecord :=
  get_pending_prompts db "lyrics_prompt" limit

/-- repositories.py `PromptRepository.update_artifact_status`: an
unconditional `UPDATE prompts SET artifact_status = ? [, error_message = ?]
WHERE id = ?`.  The `error_message` column is written only when the Python
argument is truthy (`if error_message:`), and there is no
`artifact_status = 'pending'` guard and no affected-row count returned
(the Python function returns None). -/
def update_artifact_status (db : DB) (prompt_id : Nat) (status : String)
    (error_message : Option String := none) : DB :=
  { db with prompts := db.prompts.map (fun p =>
      if p.id == prompt_id then
        if pyTruthyStr error_message then
          { p with artifact_status := status, error_message := error_message }
        else
          { p with artifact_status := status }
      else p) }

/-- The WHERE clause of the stale sweep (repositories.py
`reset_stale_processing_prompts`): `artifact_status = 'processing' AND
processed_at IS NOT NULL AND processed_at < datetime('now', '-T minutes')`,
with instants in minutes. -/
def staleCond (now timeout_minutes : Nat) (p : PromptRow) : Bool :=
  (p.artifact_status == "processing") &&
  match p.processed_at with
  | some t => decide ((t : Int) < (now : Int) - (timeout_minutes : Int))
  | none => false

/-- repositories.py `PromptRepository.reset_stale_processing_prompts`:
matching rows go back to `pending` with the explanatory note; the returned
number is the statement's rowcount. -/
def reset_stale_processing_prompts (db : DB) (now : Nat)
    (timeout_minutes : Nat) : DB × Nat :=
  ({ db with prompts := db.prompts.map (fun p =>
       if staleCond now timeout_minutes p then
         { p with artifact_status := "pending",
                  error_message := some "Reset from stale processing state" }
       else p) },
   (db.prompts.filter (staleCond now timeout_minutes)).length)

/-- Outcome of one `db_transaction` use (db_utils.py `db_transaction`):
the state the database is left in, what the context manager raises or
returns, and the connection-lifecycle events that occurred. -/
structure TxResult (σ : Type) where
  finalState : σ
  result : Except PyErr Unit
  committed : Bool
  rollbackAttempted : Bool
  connCreated : Bool
  closeCalled : Bool
deriving Repr

/-- db_utils.py `db_transaction`, with the transaction body as a pure
function from the database state to either a staged new state or a raised
exception.  Fault oracles stand for the external failure points of the
source: `connectFault` (sqlite3.connect or the PRAGMA/BEGIN statements
failing before a connection body runs — when the connect itself fails no
connection object exists, so the `finally` block's `if conn:` skips the
close), `commitFault` (conn.commit raising), and `rollbackFault`
(conn.rollback raising).  A rollback failure is caught inside the `except`
block and only logged, so it never reaches the result — the original
exception is re-raised; a close failure is likewise caught in `finally`.
Rolling back leaves the database at its state from before the body ran. -/
def db_transaction (σ : Type) (initial : σ) (connectFault : Option PyErr)
    (body : σ → Except PyErr σ) (commitFault : Option PyErr)
    (_rollbackFault : Option PyErr) : TxResult σ :=
  match connectFault with
  | some e =>
    { finalState := initial, result := .error e, committed := false,
      rollbackAttempted := false, connCreated := false, closeCalled := false }
  | none =>
    match body initial with
    | .error e =>
      -- except branch: rollback attempted, its own failure (rollbackFault)
      -- swallowed by the inner try/except, original exception re-raised,
      -- connection closed by finally.
      { finalState := initial, result := .error e, committed := false,
        rollbackAttempted := true, connCreated := true, closeCalled := true }
    | .ok staged =>
      match commitFault with
      | some e =>
        -- conn.commit() raised sqlite3.Error: same except branch as above.
        { finalState := initial, result := .error e, committed := false,
          rollbackAttempted := true, connCreated := true, closeCalled := true }
      | none =>
        { finalState := staged, result := .ok (), committed := true,
          rollbackAttempted := false, connCreated := true, closeCalled := true }

/-- db_utils.py `force_wal_checkpoint`: the outcome of the underlying
`PRAGMA wal_checkpoint(mode)` call is either a raised exception (connect
failure, busy database, pragma error), or a fetched row
`(busy, log_size, checkpointed)`, or no row.  The function maps every
outcome to a Bool and never raises: exceptions are caught by the outer
`except` and yield False. -/
def force_wal_checkpoint
    (outcome : Except PyErr (Option (Nat × Nat × Nat))) : Bool :=
  match outcome with
  | .error _ => false
  | .ok none => true
  | .ok (some (busy, _, _)) => busy == 0

/-- The INSERT row built by one loop iteration of
`ArtifactRepository.save_artifacts_atomic`
(`json.dumps(artifact.metadata) if artifact.metadata else None`). -/
def insertArtifactRow (a : ArtifactRecord) : ArtifactRow :=
  ⟨a.prompt_id, a.artifact_type, a.file_path, a.preview_path, a.metadata⟩

/-- The final UPDATE statement of `save_artifacts_atomic`:
`UPDATE prompts SET artifact_status = ? WHERE id = ?`. -/
def setPromptArtifactStatus (prompts : List PromptRow) (prompt_id : Nat)
    (status : String) : List PromptRow :=
  prompts.map (fun p =>
    if p.id == prompt_id then { p with artifact_status := status } else p)

/-- The insert loop of `save_artifacts_atomic`, executing statements
`i, i+1, ...`; `faultAt k` is the exception raised by the k-th SQL
statement of the body, if any.  Returns the staged state and the index of
the next statement. -/
def runInserts (faultAt : Nat → Option PyErr) :
    Nat → List ArtifactRecord → DB → Except PyErr (DB × Nat)
  | i, [], db => .ok (db, i)
  | i, a :: rest, db =>
    match faultAt i with
    | some e => .error e
    | none =>
      runInserts faultAt (i + 1) rest
        { db with prompt_artifacts := db.prompt_artifacts ++ [insertArtifactRow a] }

/-- The transaction body of `save_artifacts_atomic`: N inserts (statements
0..N-1) followed by the status UPDATE (statement N). -/
def saveArtifactsBody (prompt_id : Nat) (artifacts : List ArtifactRecord)
    (final_status : String) (faultAt : Nat → Option PyErr) (db : DB) :
    Except PyErr DB :=
  match runInserts faultAt 0 artifacts db with
  | .error e => .error e
  | .ok (db1, n) =>
    match faultAt n with
    | some e => .error e
    | none =>
      .ok { db1 with
              prompts := setPromptArtifactStatus db1.prompts prompt_id final_status }

/-- repositories.py `ArtifactRepository.save_artifacts_atomic`: the body
runs under `db_transaction` (IMMEDIATE isolation).  The trailing
`force_wal_checkpoint(db_path, mode="RESTART")` call does not change any
table and never raises (see `force_wal_checkpoint`), so the logical
outcome is the transaction's. -/
def save_artifacts_atomic (db : DB) (prompt_id : Nat)
    (artifacts : List ArtifactRecord) (final_status : String)
    (connectFault : Option PyErr) (faultAt : Nat → Option PyErr)
    (commitFault : Option PyErr) (rollbackFault : Option PyErr) :
    TxResult DB :=
  db_transaction DB db connectFault
    (saveArtifactsBody prompt_id artifacts final_status faultAt)
    commitFault rollbackFault

/-- media_generator_app.py `_on_task_error`: persists the failure with the
message sliced to 500 characters
(`update_artifact_status(task.prompt.id, 'error', error_msg[:500])`). -/
def on_task_error (db : DB) (prompt_id : Nat) (error_msg : String) : DB :=
  update_artifact_status db prompt_id "error" (some (sliceTo error_msg 500))

/-- media_generator_service.py `process_pending_prompts` failure path:
persists the failure with the full, unsliced message
(`update_artifact_status(prompt.id, 'error', str(e))`). -/
def service_on_error (db : DB) (prompt_id : Nat) (error_msg : String) : DB :=
  update_artifact_status db prompt_id "error" (some error_msg)

/-- Statement helper (not source code): apply `f` to the upstream `status`
column of every prompt row, leaving every other column and table untouched.
Used to state that query eligibility does not depend on `status`. -/
def mapStatus (f : String → String) (db : DB) : DB :=
  { db with prompts := db.prompts.map (fun p => { p with status := f p.status }) }

/-! Helper instances and lemmas. -/

instance : IsTotal PromptRow (fun p q => p.created_at ≤ q.created_at) :=
  ⟨fun a b => Nat.le_total a.created_at b.created_at⟩

instance : IsTrans PromptRow (fun p q => p.created_at ≤ q.created_at) :=
  ⟨fun _ _ _ => Nat.le_trans⟩

instance : IsTotal Writing (fun a b => a.writing_order ≤ b.writing_order) :=
  ⟨fun a b => Nat.le_total a.writing_order b.writing_order⟩

instance : IsTrans Writing (fun a b => a.writing_order ≤ b.writing_order) :=
  ⟨fun _ _ _ => Nat.le_trans⟩

lemma mem_pendingPrompts {db : DB} {ptype : String} {p : PromptRow} :
    p ∈ pendingPrompts db ptype ↔
      p ∈ db.prompts ∧ pendingPred ptype p = true := by
  unfold pendingPrompts
  rw [(List.perm_insertionSort _ _).mem_iff, List.mem_filter]

lemma mem_get_pending_prompts {db : DB} {ptype : String} {limit : Nat}
    {q : PromptRecord} (hq : q ∈ get_pending_prompts db ptype limit) :
    ∃ p, p ∈ db.prompts ∧ pendingPred ptype p = true ∧
      q = toPromptRecord p (writingsFor db p.id ptype) := by
  unfold get_pending_prompts at hq
  obtain ⟨p, hp, rfl⟩ := List.mem_map.mp hq
  have hp' := mem_pendingPrompts.mp (List.mem_of_mem_take hp)
  exact ⟨p, hp'.1, hp'.2, rfl⟩

lemma writingsFor_content_type {db : DB} {pid : Nat} {ctype : String}
    {w : Writing} (hw : w ∈ writingsFor db pid ctype) :
    w.content_type = ctype := by
  unfold writingsFor at hw
  rw [(List.perm_insertionSort _ _).mem_iff, List.mem_flatMap] at hw
  obtain ⟨pw, _, hw⟩ := hw
  obtain ⟨wt, hwt, rfl⟩ := List.mem_map.mp hw
  have := (List.mem_filter.mp hwt).2
  simp only [Bool.and_eq_true, beq_iff_eq] at this
  exact this.2

lemma writingsFor_sorted (db : DB) (pid : Nat) (ctype : String) :
    List.Pairwise (fun a b => a.writing_order ≤ b.writing_order)
      (writingsFor db pid ctype) :=
  List.sorted_insertionSort _ _

lemma pendingPrompts_sorted (db : DB) (ptype : String) :
    List.Pairwise (fun p q => p.created_at ≤ q.created_at)
      (pendingPrompts db ptype) :=
  List.sorted_insertionSort _ _

lemma orderedInsert_statusMap (f : String → String) (a : PromptRow)
    (l : List PromptRow) :
    List.orderedInsert (fun p q => p.created_at ≤ q.created_at)
        { a with status := f a.status }
        (l.map (fun p => { p with status := f p.status }))
      = (List.orderedInsert (fun p q => p.created_at ≤ q.created_at) a l).map
          (fun p => { p with status := f p.status }) := by
  induction l with
  | nil => rfl
  | cons b t ih =>
    simp only [List.map_cons, List.orderedInsert]
    by_cases h : a.created_at ≤ b.created_at
    · rw [if_pos h, if_pos h, List.map_cons, List.map_cons]
    · rw [if_neg h, if_neg h, List.map_cons, ih]

lemma insertionSort_statusMap (f : String → String) (l : List PromptRow) :
    List.insertionSort (fun p q => p.created_at ≤ q.created_at)
        (l.map (fun p => { p with status := f p.status }))
      = (List.insertionSort (fun p q => p.created_at ≤ q.created_at) l).map
          (fun p => { p with status := f p.status }) := by
  induction l with
  | nil => rfl
  | cons a t ih =>
    simp only [List.map_cons, List.insertionSort]
    rw [ih, orderedInsert_statusMap]

lemma pendingPrompts_mapStatus (f : String → String) (db : DB)
    (ptype : String) :
    pendingPrompts (mapStatus f db) ptype
      = (pendingPrompts db ptype).map (fun p => { p with status := f p.status }) := by
  unfold pendingPrompts
  have h1 : (mapStatus f db).prompts
      = db.prompts.map (fun p => { p with status := f p.status }) := rfl
  rw [h1, List.filter_map, insertionSort_statusMap]
  rfl

lemma runInserts_ok (faultAt : Nat → Option PyErr) :
    ∀ (arts : List ArtifactRecord) (i : Nat) (db db' : DB) (n : Nat),
      runInserts faultAt i arts db = .ok (db', n) →
      db' = { db with prompt_artifacts :=
                db.prompt_artifacts ++ arts.map insertArtifactRow }
        ∧ n = i + arts.length := by
  intro arts
  induction arts with
  | nil =>
    intro i db db' n h
    simp only [runInserts] at h
    obtain ⟨rfl, rfl⟩ : db = db' ∧ i = n := by
      cases h; exact ⟨rfl, rfl⟩
    constructor
    · cases db; simp
    · simp
  | cons a rest ih =>
    intro i db db' n h
    simp only [runInserts] at h
    cases hf : faultAt i with
    | some e => rw [hf] at h; cases h
    | none =>
      rw [hf] at h
      obtain ⟨h1, h2⟩ := ih (i + 1) _ db' n h
      constructor
      · rw [h1]; cases db; simp
      · rw [h2, List.length_cons]; omega

lemma runInserts_no_fault (faultAt : Nat → Option PyErr) :
    ∀ (arts : List ArtifactRecord) (i : Nat) (db : DB),
      (∀ j, j < arts.length → faultAt (i + j) = none) →
      runInserts faultAt i arts db
        = .ok ({ db with prompt_artifacts :=
                   db.prompt_artifacts ++ arts.map insertArtifactRow },
               i + arts.length) := by
  intro arts
  induction arts with
  | nil =>
    intro i db _
    simp only [runInserts, List.map_nil, List.append_nil, List.length_nil,
      Nat.add_zero]
  | cons a rest ih =>
    intro i db h
    have h0 : faultAt i = none := by
      have := h 0 (by simp)
      simpa using this
    simp only [runInserts, h0]
    rw [ih (i + 1) _ (fun j hj => by
      have := h (j + 1) (by simpa using Nat.succ_lt_succ hj)
      simpa [Nat.add_assoc, Nat.add_comm 1 j] using this)]
    cases db
    simp [Nat.add_assoc, Nat.add_comm 1 rest.length]

/-! Claim theorems. -/

/-- C9: for the lyrics structure
`[\x7btype: "verse", number: 1, lyrics: "a"\x7d, \x7btype: "chorus", lyrics: "b"\x7d]`,
`get_full_lyrics` returns exactly `"[Verse 1]\na\n\n[Chorus]\nb\n"`: each
section renders as a bracketed header with the section type capitalized,
followed by a space and the number only when a number is present, then a
newline, the section text, and a newline, with sections joined by a blank
line. -/
theorem c9_get_full_lyrics_rendering :
    LyricsPromptData.get_full_lyrics
      { title := "", genre := "", mood := "", tempo := "",
        sections := [⟨"verse", some 1, "a"⟩, ⟨"chorus", none, "b"⟩],
        key := "", time_signature := "", vocal_style := "",
        instrumentation := [] }
    = "[Verse 1]\na\n\n[Chorus]\nb\n" := by decide

/-- C2: the claim states that the pending → processing claim update changes
`artifact_status` only if the row was still `pending`, and that a caller
can observe an affected-row count.  The source's
`update_artifact_status` executes
`UPDATE prompts SET artifact_status = ? WHERE id = ?` with no
`artifact_status = 'pending'` guard and returns None, so a prompt whose
`artifact_status` is `ready` is still overwritten to `processing`: this
theorem evaluates the code at that failing input. -/
theorem c2_unconditional_claim_overwrite :
    (update_artifact_status
        ⟨[⟨1, "p", "image_prompt", "completed", "ready", none, 0, none,
           none, none⟩], [], [], []⟩
        1 "processing" none).prompts
    = [⟨1, "p", "image_prompt", "completed", "processing", none, 0, none,
        none, none⟩] := by decide

/-- C8: `force_wal_checkpoint` maps every outcome of the underlying pragma
call to a Bool and never raises: a raised exception (busy/blocked
database, connect failure) yields the partially-blocked indicator `false`
rather than propagating; a fetched row with `busy = 0` yields `true`, a
row with `busy ≠ 0` yields `false`, and an absent row yields `true`.
Because the function is total and is invoked only after the surrounding
transaction has committed (see `save_artifacts_atomic`), a preceding
successful write transaction still reports success. -/
theorem c8_checkpoint_never_raises
    (o : Except PyErr (Option (Nat × Nat × Nat))) :
    (∀ e, o = .error e → force_wal_checkpoint o = false)
    ∧ (∀ l c, o = .ok (some (0, l, c)) → force_wal_checkpoint o = true)
    ∧ (∀ b l c, o = .ok (some (b, l, c)) → b ≠ 0 →
        force_wal_checkpoint o = false)
    ∧ (o = .ok none → force_wal_checkpoint o = true) := by
  refine ⟨?_, ?_, ?_, ?_⟩
  · rintro e rfl; rfl
  · rintro l c rfl; rfl
  · rintro b l c rfl hb
    simp [force_wal_checkpoint, hb]
  · rintro rfl; rfl

/-- Witness for C8 at a concrete blocked-database outcome. -/
theorem c8_checkpoint_never_raises_witness :
    force_wal_checkpoint (.error (.dbError "database is locked")) = false :=
  (c8_checkpoint_never_raises (.error (.dbError "database is locked"))).1
    (.dbError "database is locked") rfl

/-- C3: for every transaction body, `db_transaction` commits iff the body
completes without raising (and the commit statement itself does not fail);
if the body raises, the transaction is rolled back and the original
exception is re-raised — a rollback failure never masks it (the outcome is
independent of the rollback fault); and the connection is closed on every
exit path on which a connection was created, whether the body succeeds,
raises, or the commit itself fails (when the connect fails no connection
object exists to close). -/
theorem c3_db_transaction_contract (σ : Type) (initial : σ)
    (body : σ → Except PyErr σ) (cf rf : Option PyErr) :
    (((db_transaction σ initial none body cf rf).committed = true)
      ↔ ((∃ s, body initial = .ok s) ∧ cf = none))
    ∧ (∀ e, body initial = .error e →
        (db_transaction σ initial none body cf rf).result = .error e
        ∧ (db_transaction σ initial none body cf rf).rollbackAttempted = true
        ∧ (db_transaction σ initial none body cf rf).finalState = initial
        ∧ (db_transaction σ initial none body cf rf).committed = false)
    ∧ (∀ s, body initial = .ok s → cf = none →
        (db_transaction σ initial none body cf rf).committed = true
        ∧ (db_transaction σ initial none body cf rf).result = .ok ()
        ∧ (db_transaction σ initial none body cf rf).finalState = s)
    ∧ (∀ s e, body initial = .ok s → cf = some e →
        (db_transaction σ initial none body cf rf).result = .error e
        ∧ (db_transaction σ initial none body cf rf).rollbackAttempted = true
        ∧ (db_transaction σ initial none body cf rf).finalState = initial)
    ∧ ((db_transaction σ initial none body cf rf).connCreated = true
        ∧ (db_transaction σ initial none body cf rf).closeCalled = true)
    ∧ (∀ rf', db_transaction σ initial none body cf rf'
        = db_transaction σ initial none body cf rf)
    ∧ (∀ e, (db_transaction σ initial (some e) body cf rf).connCreated = false
        ∧ (db_transaction σ initial (some e) body cf rf).result = .error e
        ∧ (db_transaction σ initial (some e) body cf rf).finalState = initial) := by
  refine ⟨?_, ?_, ?_, ?_, ?_, ?_, ?_⟩
  · constructor
    · intro h
      unfold db_transaction at h
      cases hb : body initial with
      | error e => rw [hb] at h; simp at h
      | ok s =>
        rw [hb] at h
        cases hc : cf with
        | some e => rw [hc] at h; simp at h
        | none => exact ⟨⟨s, rfl⟩, rfl⟩
    · rintro ⟨⟨s, hs⟩, rfl⟩
      unfold db_transaction
      rw [hs]
  · intro e he
    unfold db_transaction
    rw [he]
    exact ⟨rfl, rfl, rfl, rfl⟩
  · intro s hs hc
    unfold db_transaction
    rw [hs, hc]
    exact ⟨rfl, rfl, rfl⟩
  · intro s e hs hc
    unfold db_transaction
    rw [hs, hc]
    exact ⟨rfl, rfl, rfl⟩
  · unfold db_transaction
    cases hb : body initial with
    | error e => exact ⟨rfl, rfl⟩
    | ok s =>
      cases hc : cf with
      | some e => exact ⟨rfl, rfl⟩
      | none => exact ⟨rfl, rfl⟩
  · intro rf'; rfl
  · intro e
    exact ⟨rfl, rfl, rfl⟩

/-- Witness for C3: a concrete successful body over a one-prompt database
commits and leaves the staged state. -/
theorem c3_db_transaction_contract_witness :
    (db_transaction Nat 0 none (fun n => .ok (n + 1)) none none).committed = true
    ∧ (db_transaction Nat 0 none (fun n => .ok (n + 1)) none none).finalState = 1 :=
  ⟨((c3_db_transaction_contract Nat 0 (fun n => .ok (n + 1)) none none).2.2.1
      1 rfl rfl).1,
   ((c3_db_transaction_contract Nat 0 (fun n => .ok (n + 1)) none none).2.2.1
      1 rfl rfl).2.2⟩

/-- C7 counterexample: `update_artifact_status` itself performs no
truncation — called with status `error` and a 5000-character message, the
persisted `error_message` is the full 5000-character string, exceeding any
cap on the order of 500 characters.  (The service error path calls it with
the untruncated `str(e)`.) -/
theorem c7_counterexample :
    ((update_artifact_status
        ⟨[⟨1, "p", "image_prompt", "completed", "processing", none, 0, none,
           none, none⟩], [], [], []⟩
        1 "error" (some (String.mk (List.replicate 5000 'a')))).prompts.map
        (·.error_message))
      = [some (String.mk (List.replicate 5000 'a'))]
    ∧ (String.mk (List.replicate 5000 'a')).length = 5000 := by
  constructor
  · rfl
  · show (List.replicate 5000 'a').length = 5000
    rw [List.length_replicate]

/-- C7 as amended: `update_artifact_status` persists the caller's error
message verbatim; the bounded-length guarantee holds only on the GUI
task-error path (`_on_task_error`), which slices the message to 500
characters before persisting, so every error message it stores either
predates the call or has length at most 500.  Other callers (the
background service) pass the full message, which is stored unbounded. -/
theorem c7_amended_gui_path_truncates (db : DB) (prompt_id : Nat)
    (msg : String) :
    (sliceTo msg 500).length ≤ 500
    ∧ on_task_error db prompt_id msg
        = update_artifact_status db prompt_id "error" (some (sliceTo msg 500))
    ∧ (∀ p ∈ (on_task_error db prompt_id msg).prompts,
        (∃ q ∈ db.prompts, p.error_message = q.error_message)
        ∨ (p.error_message = some (sliceTo msg 500)
            ∧ ∀ e, p.error_message = some e → e.length ≤ 500)) := by
  have hlen : (sliceTo msg 500).length ≤ 500 := by
    show (msg.data.take 500).length ≤ 500
    rw [List.length_take]
    exact Nat.min_le_left _ _
  refine ⟨hlen, rfl, ?_⟩
  intro p hp
  unfold on_task_error update_artifact_status at hp
  simp only [List.mem_map] at hp
  obtain ⟨q, hq, rfl⟩ := hp
  by_cases hid : q.id == prompt_id
  · rw [if_pos hid]
    by_cases ht : pyTruthyStr (some (sliceTo msg 500))
    · rw [if_pos ht]
      right
      exact ⟨rfl, fun e he => by cases he; exact hlen⟩
    · rw [if_neg ht]
      left
      exact ⟨q, hq, rfl⟩
  · rw [if_neg hid]
    left
    exact ⟨q, hq, rfl⟩

/-- Witness for C7 (amended): the GUI path applied to a concrete
one-prompt database stores a message of length at most 500. -/
theorem c7_amended_gui_path_truncates_witness :
    ∀ p ∈ (on_task_error
        ⟨[⟨1, "p", "image_prompt", "completed", "processing", none, 0, none,
           none, none⟩], [], [], []⟩ 1 "boom").prompts,
      (∃ q ∈ (⟨[⟨1, "p", "image_prompt", "completed", "processing", none, 0,
                 none, none, none⟩], [], [], []⟩ : DB).prompts,
          p.error_message = q.error_message)
      ∨ (p.error_message = some (sliceTo "boom" 500)
          ∧ ∀ e, p.error_message = some e → e.length ≤ 500) :=
  (c7_amended_gui_path_truncates
    ⟨[⟨1, "p", "image_prompt", "completed", "processing", none, 0, none,
       none, none⟩], [], [], []⟩ 1 "boom").2.2

/-- C10 counterexample: `get_json_prompt` is not total on every
`PromptRecord` — when the primary writing's `content` column is SQL NULL
(the dict value is Python `None`), `json.loads(None)` raises a TypeError
that the `except json.JSONDecodeError` clause does not catch, so the call
raises instead of returning a default payload. -/
theorem c10_counterexample :
    PromptRecord.get_json_prompt Nat 0 (fun _ => some 7)
      { id := 1, prompt_text := "p", prompt_type := "image_prompt",
        status := "completed", artifact_status := "pending",
        output_reference := none, created_at := 0, completed_at := none,
        error_message := none, json_content := none, writing_id := some 1,
        writings := [⟨1, 0, none, "image_prompt", "t"⟩] }
    = .raised .typeError := rfl

/-- C10 as amended: for every `PromptRecord` whose primary (last-ordered)
writing, when present, carries a non-NULL string content, `get_json_prompt`
is total and never raises: it returns the parsed JSON of the primary
writing when that parses, otherwise falls back to the legacy
`json_content` field, and returns the empty dictionary when that field is
absent/empty or malformed — so malformed content surfaces as an
empty/default payload rather than an exception. -/
theorem c10_amended_get_json_prompt_total (J : Type) (emptyDict : J)
    (parse : String → Option J) (r : PromptRecord)
    (h : ∀ w, r.primary_writing = some w → w.content.isSome = true) :
    (∃ v, r.get_json_prompt J emptyDict parse = .ok v)
    ∧ (∀ w s v, r.primary_writing = some w → w.content = some s →
        parse s = some v → r.get_json_prompt J emptyDict parse = .ok v)
    ∧ ((r.primary_writing = none
          ∨ ∃ w s, r.primary_writing = some w ∧ w.content = some s
              ∧ parse s = none) →
        ((∀ s v, r.json_content = some s → s ≠ "" → parse s = some v →
            r.get_json_prompt J emptyDict parse = .ok v)
         ∧ ((r.json_content = none ∨ r.json_content = some ""
              ∨ ∃ s, r.json_content = some s ∧ parse s = none) →
            r.get_json_prompt J emptyDict parse = .ok emptyDict))) := by
  have hlegacy : ∃ v, r.legacy_json J emptyDict parse = .ok v := by
    cases hj : r.json_content with
    | none => exact ⟨emptyDict, by simp only [PromptRecord.legacy_json, hj]; rfl⟩
    | some s =>
      by_cases hs : pyTruthyStr (some s) = true
      · exact ⟨(parse s).getD emptyDict,
          by simp only [PromptRecord.legacy_json, hj, hs, if_true]⟩
      · exact ⟨emptyDict,
          by simp only [PromptRecord.legacy_json, hj]; rw [if_neg hs]⟩
  have hlegacy_parse : ∀ s v, r.json_content = some s → s ≠ "" →
      parse s = some v → r.legacy_json J emptyDict parse = .ok v := by
    intro s v hj hs hp
    have htr : pyTruthyStr (some s) = true := by
      simp [pyTruthyStr, hs]
    simp only [PromptRecord.legacy_json, hj, htr, if_true, hp, Option.getD]
  have hlegacy_empty : (r.json_content = none ∨ r.json_content = some ""
        ∨ ∃ s, r.json_content = some s ∧ parse s = none) →
      r.legacy_json J emptyDict parse = .ok emptyDict := by
    intro hempty
    rcases hempty with hj | hj | ⟨s, hj, hp⟩
    · simp only [PromptRecord.legacy_json, hj]; rfl
    · simp only [PromptRecord.legacy_json, hj]; rfl
    · by_cases hs : pyTruthyStr (some s) = true
      · simp only [PromptRecord.legacy_json, hj, hs, if_true, hp, Option.getD]
      · simp only [PromptRecord.legacy_json, hj]
        rw [if_neg hs]
  refine ⟨?_, ?_, ?_⟩
  · cases hw : r.primary_writing with
    | none =>
      obtain ⟨v, hv⟩ := hlegacy
      exact ⟨v, by simp only [PromptRecord.get_json_prompt, hw, hv]⟩
    | some w =>
      cases hc : w.content with
      | none =>
        have := h w hw
        rw [hc] at this
        cases this
      | some s =>
        cases hp : parse s with
        | some v =>
          exact ⟨v, by simp only [PromptRecord.get_json_prompt, hw, hc, hp]⟩
        | none =>
          obtain ⟨v, hv⟩ := hlegacy
          exact ⟨v, by simp only [PromptRecord.get_json_prompt, hw, hc, hp, hv]⟩
  · intro w s v hw hc hp
    simp only [PromptRecord.get_json_prompt, hw, hc, hp]
  · intro hfail
    have hred : r.get_json_prompt J emptyDict parse
        = r.legacy_json J emptyDict parse := by
      rcases hfail with hw | ⟨w, s', hw, hc, hparse⟩
      · simp only [PromptRecord.get_json_prompt, hw]
      · simp only [PromptRecord.get_json_prompt, hw, hc, hparse]
    rw [hred]
    exact ⟨hlegacy_parse, hlegacy_empty⟩

/-- Witness for C10 (amended): a record with no writings and no legacy
content yields the empty dictionary. -/
theorem c10_amended_get_json_prompt_total_witness :
    PromptRecord.get_json_prompt Nat 0 (fun _ => none)
      { id := 1, prompt_text := "p", prompt_type := "image_prompt",
        status := "completed", artifact_status := "pending",
        output_reference := none, created_at := 0, completed_at := none,
        error_message := none, json_content := none, writing_id := none,
        writings := [] }
    = .ok 0 :=
  ((c10_amended_get_json_prompt_total Nat 0 (fun _ => none)
      { id := 1, prompt_text := "p", prompt_type := "image_prompt",
        status := "completed", artifact_status := "pending",
        output_reference := none, created_at := 0, completed_at := none,
        error_message := none, json_content := none, writing_id := none,
        writings := [] }
      (fun w hw => by cases hw)).2.2 (Or.inl rfl)).2 (Or.inl rfl)

/-- C6: for every timeout, `reset_stale_processing_prompts` moves every
prompt whose `artifact_status` is `processing` and whose processing-start
timestamp is older than the timeout back to `pending` with the explanatory
note `Reset from stale processing state`, returns the number of rows so
matched, and leaves every prompt within the timeout window — and every
prompt not in `processing` — unchanged. -/
theorem c6_reclaim_stale (db : DB) (now timeout_minutes : Nat) :
    ((reset_stale_processing_prompts db now timeout_minutes).1.prompts.length
      = db.prompts.length)
    ∧ (∀ i, (hi : i < db.prompts.length) →
        (hj : i < (reset_stale_processing_prompts db now
                    timeout_minutes).1.prompts.length) →
        (∀ t, (db.prompts.get ⟨i, hi⟩).artifact_status = "processing" →
          (db.prompts.get ⟨i, hi⟩).processed_at = some t →
          (t : Int) < (now : Int) - (timeout_minutes : Int) →
          (reset_stale_processing_prompts db now
              timeout_minutes).1.prompts.get ⟨i, hj⟩
            = { db.prompts.get ⟨i, hi⟩ with
                  artifact_status := "pending",
                  error_message := some "Reset from stale processing state" })
        ∧ (∀ t, (db.prompts.get ⟨i, hi⟩).artifact_status = "processing" →
            (db.prompts.get ⟨i, hi⟩).processed_at = some t →
            ¬ ((t : Int) < (now : Int) - (timeout_minutes : Int)) →
            (reset_stale_processing_prompts db now
                timeout_minutes).1.prompts.get ⟨i, hj⟩
              = db.prompts.get ⟨i, hi⟩)
        ∧ ((db.prompts.get ⟨i, hi⟩).artifact_status ≠ "processing" →
            (reset_stale_processing_prompts db now
                timeout_minutes).1.prompts.get ⟨i, hj⟩
              = db.prompts.get ⟨i, hi⟩))
    ∧ ((reset_stale_processing_prompts db now timeout_minutes).2
        = db.prompts.countP (staleCond now timeout_minutes)) := by
  refine ⟨by simp [reset_stale_processing_prompts], ?_, ?_⟩
  · intro i hi hj
    have hget : (reset_stale_processing_prompts db now
        timeout_minutes).1.prompts.get ⟨i, hj⟩
        = (if staleCond now timeout_minutes (db.prompts.get ⟨i, hi⟩) = true
           then { db.prompts.get ⟨i, hi⟩ with
                    artifact_status := "pending",
                    error_message :=
                      some "Reset from stale processing state" }
           else db.prompts.get ⟨i, hi⟩) := by
      simp only [reset_stale_processing_prompts]
      rw [List.get_map]
    refine ⟨?_, ?_, ?_⟩
    · intro t hproc htime hlt
      have hcond : staleCond now timeout_minutes (db.prompts.get ⟨i, hi⟩)
          = true := by
        simp only [staleCond, htime]
        rw [beq_iff_eq.mpr hproc, decide_eq_true hlt]
        rfl
      rw [hget, if_pos hcond]
    · intro t hproc htime hnlt
      have hcond : staleCond now timeout_minutes (db.prompts.get ⟨i, hi⟩)
          = false := by
        simp only [staleCond, htime]
        rw [decide_eq_false hnlt, Bool.and_false]
      rw [hget, if_neg (fun hcontra => by
        rw [hcond] at hcontra; exact Bool.false_ne_true hcontra)]
    · intro hnproc
      have hcond : staleCond now timeout_minutes (db.prompts.get ⟨i, hi⟩)
          = false := by
        simp only [staleCond]
        rw [beq_eq_false_iff_ne.mpr hnproc, Bool.false_and]
      rw [hget, if_neg (fun hcontra => by
        rw [hcond] at hcontra; exact Bool.false_ne_true hcontra)]
  · simp [reset_stale_processing_prompts, List.countP_eq_length_filter]

/-- Witness for C6: one prompt stuck in `processing` since instant 0 with a
30-minute timeout is reclaimed at instant 100 (count 1), applying
`c6_reclaim_stale` at that concrete database. -/
theorem c6_reclaim_stale_witness :
    (reset_stale_processing_prompts
        ⟨[⟨1, "p", "image_prompt", "completed", "processing", none, 0, none,
           none, some 0⟩], [], [], []⟩ 100 30).1.prompts.get
        ⟨0, by decide⟩
      = ⟨1, "p", "image_prompt", "completed", "pending", none, 0, none,
         some "Reset from stale processing state", some 0⟩
    ∧ (reset_stale_processing_prompts
        ⟨[⟨1, "p", "image_prompt", "completed", "processing", none, 0, none,
           none, some 0⟩], [], [], []⟩ 100 30).2 = 1 := by
  constructor
  · exact ((c6_reclaim_stale
      ⟨[⟨1, "p", "image_prompt", "completed", "processing", none, 0, none,
         none, some 0⟩], [], [], []⟩ 100 30).2.1 0 (by decide)
      (by decide)).1 0 rfl rfl (by decide)
  · rw [(c6_reclaim_stale
      ⟨[⟨1, "p", "image_prompt", "completed", "processing", none, 0, none,
         none, some 0⟩], [], [], []⟩ 100 30).2.2]
    decide

/-- C1: for every prompt id, artifact batch of size N ≥ 0 and final
status, and for every fault configuration of the involved statements,
`save_artifacts_atomic` either (result ok) leaves the database with
exactly N new artifact rows appended and the prompt's `artifact_status`
set to `final_status`, or (any step raising) leaves the database exactly
unchanged — zero new rows, prompt status untouched; no partial outcome is
possible.  When no statement, the connect, nor the commit faults, the
operation succeeds. -/
theorem c1_save_artifacts_atomic_all_or_nothing (db : DB) (prompt_id : Nat)
    (artifacts : List ArtifactRecord) (final_status : String)
    (connectFault : Option PyErr) (faultAt : Nat → Option PyErr)
    (commitFault rollbackFault : Option PyErr) :
    ((save_artifacts_atomic db prompt_id artifacts final_status connectFault
        faultAt commitFault rollbackFault).finalState = db
      ∨ (save_artifacts_atomic db prompt_id artifacts final_status
          connectFault faultAt commitFault rollbackFault).finalState
          = { db with
                prompt_artifacts :=
                  db.prompt_artifacts ++ artifacts.map insertArtifactRow,
                prompts :=
                  setPromptArtifactStatus db.prompts prompt_id final_status })
    ∧ ((save_artifacts_atomic db prompt_id artifacts final_status
          connectFault faultAt commitFault rollbackFault).result = .ok () →
        ((save_artifacts_atomic db prompt_id artifacts final_status
            connectFault faultAt commitFault
            rollbackFault).finalState.prompt_artifacts.length
          = db.prompt_artifacts.length + artifacts.length)
        ∧ (save_artifacts_atomic db prompt_id artifacts final_status
            connectFault faultAt commitFault
            rollbackFault).finalState.prompt_artifacts
          = db.prompt_artifacts ++ artifacts.map insertArtifactRow
        ∧ (save_artifacts_atomic db prompt_id artifacts final_status
            connectFault faultAt commitFault rollbackFault).finalState.prompts
          = setPromptArtifactStatus db.prompts prompt_id final_status
        ∧ (∀ q ∈ (save_artifacts_atomic db prompt_id artifacts final_status
            connectFault faultAt commitFault
            rollbackFault).finalState.prompts,
            q.id = prompt_id → q.artifact_status = final_status))
    ∧ (∀ e, (save_artifacts_atomic db prompt_id artifacts final_status
          connectFault faultAt commitFault rollbackFault).result = .error e →
        (save_artifacts_atomic db prompt_id artifacts final_status
          connectFault faultAt commitFault rollbackFault).finalState = db)
    ∧ (connectFault = none → commitFault = none →
        (∀ j, j ≤ artifacts.length → faultAt j = none) →
        (save_artifacts_atomic db prompt_id artifacts final_status
          connectFault faultAt commitFault rollbackFault).result = .ok ()) := by
  have hbody : ∀ db1, saveArtifactsBody prompt_id artifacts final_status
      faultAt db = .ok db1 →
      db1 = { db with
                prompt_artifacts :=
                  db.prompt_artifacts ++ artifacts.map insertArtifactRow,
                prompts :=
                  setPromptArtifactStatus db.prompts prompt_id
                    final_status } := by
    intro db1 hok
    unfold saveArtifactsBody at hok
    cases hrun : runInserts faultAt 0 artifacts db with
    | error e => rw [hrun] at hok; cases hok
    | ok pair =>
      obtain ⟨db2, n⟩ := pair
      obtain ⟨hdb2, hn⟩ := runInserts_ok faultAt artifacts 0 db db2 n hrun
      cases hf : faultAt n with
      | some e => simp only [hrun, hf] at hok; cases hok
      | none =>
        simp only [hrun, hf, Except.ok.injEq] at hok
        rw [← hok, hdb2]
  unfold save_artifacts_atomic db_transaction
  cases hcn : connectFault with
  | some e =>
    refine ⟨Or.inl rfl, ?_, ?_, ?_⟩
    · intro h; cases h
    · intro e' _; rfl
    · intro hc; cases hc
  | none =>
    cases hb : saveArtifactsBody prompt_id artifacts final_status faultAt db with
    | error e =>
      refine ⟨Or.inl rfl, ?_, ?_, ?_⟩
      · intro h; cases h
      · intro e' _; rfl
      · intro _ hcf hfa
        have hrunok := runInserts_no_fault faultAt artifacts 0 db
          (fun j hj => by rw [Nat.zero_add]; exact hfa j (Nat.le_of_lt hj))
        rw [Nat.zero_add] at hrunok
        have : saveArtifactsBody prompt_id artifacts final_status faultAt db
            = .ok { db with
                prompt_artifacts :=
                  db.prompt_artifacts ++ artifacts.map insertArtifactRow,
                prompts :=
                  setPromptArtifactStatus db.prompts prompt_id
                    final_status } := by
          unfold saveArtifactsBody
          simp only [hrunok, hfa artifacts.length (Nat.le_refl _)]
        rw [this] at hb
        cases hb
    | ok staged =>
      have hstaged := hbody staged hb
      cases hcf : commitFault with
      | some e =>
        refine ⟨Or.inl rfl, ?_, ?_, ?_⟩
        · intro h; cases h
        · intro e' _; rfl
        · intro _ hc; cases hc
      | none =>
        refine ⟨Or.inr hstaged, ?_, ?_, ?_⟩
        · intro _
          rw [hstaged]
          refine ⟨by simp, rfl, rfl, ?_⟩
          intro q hq hqid
          simp only [setPromptArtifactStatus, List.mem_map] at hq
          obtain ⟨p, _, rfl⟩ := hq
          by_cases hid : p.id == prompt_id
          · rw [if_pos hid]
          · rw [if_neg hid] at hqid ⊢
            exact absurd (beq_iff_eq.mpr hqid) hid
        · intro e' he'; cases he'
        · intro _ _ _; rfl

/-- Witness for C1: a fault on statement 0 (the first INSERT) of a
two-artifact batch leaves the one-prompt database unchanged, by
`c1_save_artifacts_atomic_all_or_nothing` applied at that concrete
input. -/
theorem c1_save_artifacts_atomic_all_or_nothing_witness :
    (save_artifacts_atomic
        ⟨[⟨1, "p", "image_prompt", "completed", "processing", none, 0, none,
           none, none⟩], [], [], []⟩
        1
        [⟨1, "image", "a.png", some "a.png", none⟩,
         ⟨1, "image", "b.png", some "b.png", none⟩]
        "ready" none (fun _ => some (.dbError "disk full")) none
        none).finalState
      = ⟨[⟨1, "p", "image_prompt", "completed", "processing", none, 0, none,
          none, none⟩], [], [], []⟩ :=
  (c1_save_artifacts_atomic_all_or_nothing
      ⟨[⟨1, "p", "image_prompt", "completed", "processing", none, 0, none,
         none, none⟩], [], [], []⟩
      1
      [⟨1, "image", "a.png", some "a.png", none⟩,
       ⟨1, "image", "b.png", some "b.png", none⟩]
      "ready" none (fun _ => some (.dbError "disk full")) none
      none).2.2.1 (.dbError "disk full") rfl

/-- C4 counterexample: the claim states a prompt is eligible iff
`artifact_status = 'pending'` and it has a content record of matching
`content_type`, with no other field affecting eligibility — but the core's
`is_pending` check also requires the upstream `status` field to be
`completed`.  A record with `status = 'failed'`, `artifact_status =
'pending'` and a matching writing satisfies the claim's condition yet
fails `is_pending`, so the stated equivalence is false. -/
theorem c4_counterexample :
    ¬ ((PromptRecord.is_pending
        { id := 1, prompt_text := "p", prompt_type := "image_prompt",
          status := "failed", artifact_status := "pending",
          output_reference := none, created_at := 0, completed_at := none,
          error_message := none, json_content := none, writing_id := some 1,
          writings := [⟨1, 0, some "c", "image_prompt", "t"⟩] }) = true
      ↔ (({ id := 1, prompt_text := "p", prompt_type := "image_prompt",
            status := "failed", artifact_status := "pending",
            output_reference := none, created_at := 0, completed_at := none,
            error_message := none, json_content := none, writing_id := some 1,
            writings := [⟨1, 0, some "c", "image_prompt", "t"⟩] } :
              PromptRecord).artifact_status = "pending"
          ∧ ({ id := 1, prompt_text := "p", prompt_type := "image_prompt",
               status := "failed", artifact_status := "pending",
               output_reference := none, created_at := 0,
               completed_at := none, error_message := none,
               json_content := none, writing_id := some 1,
               writings := [⟨1, 0, some "c", "image_prompt", "t"⟩] } :
                 PromptRecord).writings.any
              (fun w => w.content_type == "image_prompt") = true)) := by
  decide

/-- C4 as amended: the model-level check `is_pending` holds iff the
upstream `status` is `completed` AND `artifact_status` is `pending` AND
the record has content (a legacy `json_content` value or at least one
writing, regardless of its `content_type`); the pending-prompt queries
select on `artifact_status = 'pending'` and the prompt type only, so every
returned record has those two properties. -/
theorem c4_amended_eligibility (r : PromptRecord) (db : DB) (ptype : String)
    (limit : Nat) :
    (r.is_pending = true ↔
      (r.status = "completed" ∧ r.artifact_status = "pending"
        ∧ (r.json_content ≠ none ∨ r.writings ≠ [])))
    ∧ (∀ q ∈ get_pending_prompts db ptype limit,
        q.artifact_status = "pending" ∧ q.prompt_type = ptype) := by
  constructor
  · unfold PromptRecord.is_pending
    simp only [Bool.and_eq_true, beq_iff_eq, Bool.or_eq_true,
      Option.isSome_iff_exists, decide_eq_true_eq]
    constructor
    · rintro ⟨⟨hs, ha⟩, hc⟩
      refine ⟨hs, ha, ?_⟩
      rcases hc with ⟨v, hv⟩ | hlen
      · left; rw [hv]; exact Option.some_ne_none v
      · right
        intro hnil
        rw [hnil] at hlen
        exact absurd hlen (by decide)
    · rintro ⟨hs, ha, hc⟩
      refine ⟨⟨hs, ha⟩, ?_⟩
      rcases hc with hjc | hw
      · left
        cases hj : r.json_content with
        | none => exact absurd hj hjc
        | some v => exact ⟨v, rfl⟩
      · right
        cases hws : r.writings with
        | nil => exact absurd hws hw
        | cons a t => simp [hws]
  · intro q hq
    obtain ⟨p, _, hpred, rfl⟩ := mem_get_pending_prompts hq
    unfold pendingPred at hpred
    simp only [Bool.and_eq_true, beq_iff_eq] at hpred
    exact ⟨hpred.1, hpred.2⟩

/-- Witness for C4 (amended): a completed, pending record with one writing
satisfies `is_pending`. -/
theorem c4_amended_eligibility_witness :
    PromptRecord.is_pending
      { id := 1, prompt_text := "p", prompt_type := "image_prompt",
        status := "completed", artifact_status := "pending",
        output_reference := none, created_at := 0, completed_at := none,
        error_message := none, json_content := none, writing_id := some 1,
        writings := [⟨1, 0, some "c", "image_prompt", "t"⟩] } = true :=
  (c4_amended_eligibility
      { id := 1, prompt_text := "p", prompt_type := "image_prompt",
        status := "completed", artifact_status := "pending",
        output_reference := none, created_at := 0, completed_at := none,
        error_message := none, json_content := none, writing_id := some 1,
        writings := [⟨1, 0, some "c", "image_prompt", "t"⟩] }
      ⟨[], [], [], []⟩ "image_prompt" 0).1.mpr
    ⟨rfl, rfl, Or.inr (by decide)⟩

/-- C5: for every database state and limit, the pending-prompt query
returns only prompts with `artifact_status = 'pending'` of the requested
type, ordered oldest-first by `created_at`; when the limit covers all
matches, every matching prompt is returned; each returned record is
hydrated with content records all of the matching `content_type`, ordered
by their stored `writing_order`; and the selection does not depend on the
upstream `status` column (rewriting that column arbitrarily leaves the
returned ids and their order unchanged).  The query is a pure function of
the database state, so repeated calls without intervening writes return
the same list definitionally. -/
theorem c5_find_eligible_characterization (db : DB) (ptype : String)
    (limit : Nat) (f : String → String) :
    (∀ q ∈ get_pending_prompts db ptype limit,
        q.artifact_status = "pending" ∧ q.prompt_type = ptype)
    ∧ List.Pairwise (fun a b => a.created_at ≤ b.created_at)
        (get_pending_prompts db ptype limit)
    ∧ ((db.prompts.filter (pendingPred ptype)).length ≤ limit →
        ∀ p ∈ db.prompts, pendingPred ptype p = true →
          ∃ q ∈ get_pending_prompts db ptype limit, q.id = p.id)
    ∧ (∀ q ∈ get_pending_prompts db ptype limit,
        (∀ w ∈ q.writings, w.content_type = ptype)
        ∧ List.Pairwise (fun a b => a.writing_order ≤ b.writing_order)
            q.writings)
    ∧ ((get_pending_prompts (mapStatus f db) ptype limit).map (·.id)
        = (get_pending_prompts db ptype limit).map (·.id)) := by
  refine ⟨?_, ?_, ?_, ?_, ?_⟩
  · intro q hq
    obtain ⟨p, _, hpred, rfl⟩ := mem_get_pending_prompts hq
    unfold pendingPred at hpred
    simp only [Bool.and_eq_true, beq_iff_eq] at hpred
    exact ⟨hpred.1, hpred.2⟩
  · have hs := pendingPrompts_sorted db ptype
    have ht := List.Pairwise.sublist
      (List.take_sublist limit (pendingPrompts db ptype)) hs
    exact List.pairwise_map.mpr ht
  · intro hlen p hp hpred
    have hmem : p ∈ pendingPrompts db ptype :=
      mem_pendingPrompts.mpr ⟨hp, hpred⟩
    have hlen' : (pendingPrompts db ptype).length ≤ limit := by
      unfold pendingPrompts
      rw [(List.perm_insertionSort _ _).length_eq]
      exact hlen
    have hfull : (pendingPrompts db ptype).take limit
        = pendingPrompts db ptype := List.take_of_length_le hlen'
    exact ⟨toPromptRecord p (writingsFor db p.id ptype),
      List.mem_map_of_mem _ (by rw [hfull]; exact hmem), rfl⟩
  · intro q hq
    obtain ⟨p, _, _, rfl⟩ := mem_get_pending_prompts hq
    exact ⟨fun w hw => writingsFor_content_type hw,
      writingsFor_sorted db p.id ptype⟩
  · unfold get_pending_prompts
    rw [pendingPrompts_mapStatus, ← List.map_take]
    simp only [List.map_map]
    exact List.map_congr_left (fun p _ => rfl)

/-- Witness for C5: over a two-prompt database (one matching `pending`
image prompt created later than a non-matching one), with the limit
covering all matches, the matching prompt's id is returned. -/
theorem c5_find_eligible_characterization_witness :
    ∃ q ∈ get_pending_prompts
        ⟨[⟨1, "a", "image_prompt", "completed", "ready", none, 0, none,
           none, none⟩,
          ⟨2, "b", "image_prompt", "failed", "pending", none, 5, none,
           none, none⟩], [], [], []⟩ "image_prompt" 10,
      q.id = 2 :=
  (c5_find_eligible_characterization
      ⟨[⟨1, "a", "image_prompt", "completed", "ready", none, 0, none,
         none, none⟩,
        ⟨2, "b", "image_prompt", "failed", "pending", none, 5, none,
         none, none⟩], [], [], []⟩ "image_prompt" 10 id).2.2.1
    (by decide)
    ⟨2, "b", "image_prompt", "failed", "pending", none, 5, none, none, none⟩
    (by decide) (by decide)

end MediaGen
